import Mathlib

/-!
Shallow embedding of the RAG assistant backend (services/api) : document
lifecycle, Qdrant-backed document registry, ingestion worker, RAG query and
streaming paths, and the upload/delete endpoints.  External services (Qdrant,
Redis, the embedding model, the LLM) are modelled as explicit state (lists of
points) and oracle inputs (Except-valued outcomes of external calls).  Point
ids produced by uuid.uuid4() are modelled by a monotone counter `nextUuid`;
Qdrant scroll order is modelled as insertion order, which coincides with
ascending point-id order for stores built by these operations.
-/

namespace RAGApp

/-- models.py DocumentStatus : the four lifecycle states. -/
inductive DocumentStatus where
  | uploaded
  | processing
  | ingested
  | failed
  deriving DecidableEq

/-- models.py Document : the pydantic document record; datetimes are Nat
timestamps (isoformat round-trips faithfully).  Note the record has NO error
field of any kind. -/
structure Document where
  document_id : String
  user_id : String
  filename : String
  content_type : String
  storage_uri : String
  status : DocumentStatus
  created_at : Nat
  updated_at : Option Nat := none
  tags : Option (List String) := none
  checksum : Option String := none
  deriving DecidableEq

/-- The mutation performed by update_document_status before writing back :
replace status and stamp updated_at. -/
def withStatus (d : Document) (s : DocumentStatus) (now : Nat) : Document :=
  { d with status := s, updated_at := some now }

/-- Payload of a point in the chunks collection, as written by
RAGService.ingest_document (node metadata). -/
structure ChunkPayload where
  chunk_id : Nat
  chunk_index : Nat
  document_id : String
  text : String
  embedding_version : String
  deriving DecidableEq

/-- A point of the Qdrant documents collection : point id plus payload. -/
structure DocPoint where
  pid : Nat
  payload : Document
  deriving DecidableEq

/-- A point of the Qdrant chunks collection. -/
structure ChunkPoint where
  pid : Nat
  payload : ChunkPayload
  deriving DecidableEq

/-- The Qdrant state visible to the service : the two collections, plus the
uuid supply (uuid.uuid4() modelled as a fresh-counter draw). -/
structure Store where
  documents : List DocPoint
  chunks : List ChunkPoint
  nextUuid : Nat
  deriving DecidableEq

/-- Qdrant upsert semantics on the documents collection : a point with an
existing id replaces it, a new id is appended. -/
def qdrantUpsertDoc (docs : List DocPoint) (p : DocPoint) : List DocPoint :=
  if docs.any (fun q => q.pid == p.pid) then
    docs.map (fun q => if q.pid == p.pid then p else q)
  else
    docs ++ [p]

/-- document_service.py DocumentService.create_document : builds a point with
a FRESH uuid.uuid4() point id and upserts it into the documents collection.
`storeOk` models whether the qdrant.upsert network call succeeds (the except
branch returns False and leaves the collection unchanged; the uuid was
already drawn). -/
def create_document (st : Store) (storeOk : Bool) (doc : Document) :
    Store × Bool :=
  let p : DocPoint := { pid := st.nextUuid, payload := doc }
  let st1 : Store := { st with nextUuid := st.nextUuid + 1 }
  if storeOk then
    ({ st1 with documents := qdrantUpsertDoc st1.documents p }, true)
  else
    (st1, false)

/-- document_service.py DocumentService.get_document : scroll the documents
collection with a document_id filter, limit 1, and rebuild the Document from
the first matching point's payload. -/
def get_document (st : Store) (document_id : String) : Option Document :=
  (st.documents.find? (fun p => p.payload.document_id == document_id)).map
    (fun p => p.payload)

/-- document_service.py DocumentService.update_document_status : read the
current record via get_document, mutate status and updated_at, and write it
back THROUGH create_document (which upserts under a fresh point id).  The
create_document result is discarded and True is returned whenever the record
was found. -/
def update_document_status (st : Store) (storeOk : Bool) (document_id : String)
    (status : DocumentStatus) (now : Nat) : Store × Bool :=
  match get_document st document_id with
  | none => (st, false)
  | some doc =>
    let doc1 : Document := { doc with status := status, updated_at := some now }
    let r := create_document st storeOk doc1
    (r.1, true)

/-- document_service.py DocumentService.delete_document : scroll for the first
point matching the document_id filter (limit 1) and delete that single point
by id; returns False when no point matches or the store call fails. -/
def delete_document (st : Store) (storeOk : Bool) (document_id : String) :
    Store × Bool :=
  if storeOk then
    match st.documents.find? (fun p => p.payload.document_id == document_id) with
    | some p =>
      ({ st with documents := st.documents.filter (fun q => !(q.pid == p.pid)) },
       true)
    | none => (st, false)
  else
    (st, false)

/-- config.py Settings : the configuration fields the modelled paths read,
with their defaults. -/
structure Settings where
  MAX_UPLOAD_SIZE_MB : Nat := 50
  USE_LOCAL_EMBEDDINGS : Bool := false
  UPLOAD_DIR : String := "./uploads"
  CHUNK_SIZE : Nat := 1000
  CHUNK_OVERLAP : Nat := 200
  EMBEDDING_VERSION : String := "v1"
  deriving DecidableEq

/-- database.py _ensure_collections : the chunks-collection name and vector
dimension chosen at startup, determined by the embedding provider :
local all-MiniLM-L6-v2 gives ("chunks_local", 384), OpenAI
text-embedding-3-small gives ("chunks", 1536). -/
def ensure_collections_chunk (useLocal : Bool) : String × Nat :=
  if useLocal then ("chunks_local", 384) else ("chunks", 1536)

/-- Vector dimension of the active embedding provider (database.py comments :
384 for the local model, 1536 for OpenAI embeddings). -/
def embeddingDimension (s : Settings) : Nat :=
  if s.USE_LOCAL_EMBEDDINGS then 384 else 1536

namespace RAGService

/-- rag_service.py RAGService._get_vector_store : the QdrantVectorStore is
always constructed with collection_name hardcoded to "chunks", whatever the
settings say. -/
def get_vector_store_collection (_s : Settings) : String := "chunks"

/-- rag_service.py RAGService._parse_document : dispatch on content type and
extract text; every handler is an external call whose outcome is the oracle
argument.  An exception (unsupported/corrupt content, IO failure) is caught,
printed, and turned into None. -/
def parse_document (outcome : Except String String) : Option String :=
  match outcome with
  | Except.ok t => some t
  | Except.error _ => none

/-- index.insert_nodes as performed at the end of ingest_document : each
chunk is upserted into the chunks collection under a fresh uuid, carrying
chunk_index in emission order starting at 0. -/
def insert_nodes (st : Store) (document_id : String) (ev : String)
    (pieces : List String) : Store :=
  { st with
    chunks := st.chunks ++ pieces.enum.map (fun q =>
      { pid := st.nextUuid + q.1
        payload := { chunk_id := st.nextUuid + q.1
                     chunk_index := q.1
                     document_id := document_id
                     text := q.2
                     embedding_version := ev } })
    nextUuid := st.nextUuid + pieces.length }

/-- rag_service.py RAGService.ingest_document : parse, then bail out with
False when the text is missing or empty (`if not text_content`), else chunk
with the SentenceSplitter (the external splitter oracle) and insert the
nodes.  The vector-store insert is modelled as succeeding. -/
def ingest_document (st : Store) (document_id : String)
    (parseOutcome : Except String String) (splitter : String → List String)
    (ev : String) : Store × Bool :=
  match parse_document parseOutcome with
  | none => (st, false)
  | some text =>
    if text = "" then (st, false)
    else (insert_nodes st document_id ev (splitter text), true)

/-- rag_service.py RAGService.delete_document_chunks : delete every point of
the chunks collection whose payload document_id matches, via a Qdrant
FilterSelector; the except branch returns False and changes nothing. -/
def delete_document_chunks (st : Store) (storeOk : Bool)
    (document_id : String) : Store × Bool :=
  if storeOk then
    ({ st with
       chunks := st.chunks.filter (fun p => !(p.payload.document_id == document_id)) },
     true)
  else
    (st, false)

end RAGService

/-- A retrieved node as seen in response.source_nodes : text, similarity
score, and originating document id (from the node metadata). -/
structure ScoredNode where
  text : String
  score : Int
  document_id : String
  deriving DecidableEq

/-- A source citation as built by the query paths. -/
structure Source where
  text : String
  score : Int
  document_id : String
  deriving DecidableEq

/-- Values appearing in the response metadata dict. -/
inductive MetaVal where
  | s (v : String)
  | n (v : Nat)
  deriving DecidableEq

/-- models.py QueryResponse : answer, sources, metadata. -/
structure QueryResponse where
  answer : String
  sources : List Source
  metadata : List (String × MetaVal)
  deriving DecidableEq

/-- models.py QueryRequest : the request body of the query endpoints.  The
temperature default 0.7 is modelled as the rational 7/10. -/
structure QueryRequest where
  query : String
  filters : Option (List (String × String)) := none
  top_k : Nat := 5
  temperature : Rat := 7/10
  deriving DecidableEq

/-- Outcomes of the external calls made by one query : `engineFail` is the
exception (if any) raised by embedding the query or running the retriever,
`llm` the LLM call outcome, and `ranked` the similarity-ranked view of the
chunks collection that the retriever would draw from. -/
structure QueryOracle where
  engineFail : Option String
  llm : Except String String
  ranked : List ScoredNode

/-- node.text truncated for citation display : text[:200] + "..." when longer
than 200 characters. -/
def truncateText (t : String) : String :=
  if t.length > 200 then (t.take 200) ++ "..." else t

/-- One entry of the sources list built from a retrieved node. -/
def mkSource (nd : ScoredNode) : Source :=
  { text := truncateText nd.text, score := nd.score, document_id := nd.document_id }

namespace RAGService

/-- rag_service.py RAGService.query : build a retriever with
similarity_top_k = 5, run the engine, and return answer plus sources plus
metadata; ANY exception is caught and turned into a QueryResponse whose
answer is the string "Error processing query: " followed by the exception
text, with empty sources and an error entry in metadata.  The function is
total : it never raises.  The filters argument is accepted and never read,
as in the source. -/
def query (o : QueryOracle) (query_text : String)
    (_filters : List (String × String)) : QueryResponse :=
  match o.engineFail with
  | some e =>
    { answer := "Error processing query: " ++ e
      sources := []
      metadata := [("error", MetaVal.s e)] }
  | none =>
    match o.llm with
    | Except.error e =>
      { answer := "Error processing query: " ++ e
        sources := []
        metadata := [("error", MetaVal.s e)] }
    | Except.ok ans =>
      let sources := (o.ranked.take 5).map mkSource
      { answer := ans
        sources := sources
        metadata := [("query", MetaVal.s query_text),
                     ("num_sources", MetaVal.n sources.length)] }

end RAGService

/-- Events yielded by RAGService.query_stream. -/
inductive StreamEvent where
  | answer (content : String)
  | sources (content : List Source)
  | error (content : String)
  deriving DecidableEq

namespace RAGService

/-- rag_service.py RAGService.query_stream : a generator whose try block
spans BOTH yields.  The engine runs before the first yield (failures there
give a single error event); the answer event is yielded; then the sources
list is built by accessing node.text / node.score / node.metadata on each
retrieved node — `extractFail` is the exception (if any) raised by that loop,
which the enclosing except turns into a trailing error event; otherwise the
sources event follows. -/
def query_stream (o : QueryOracle) (extractFail : Option String)
    (_query_text : String) : List StreamEvent :=
  match o.engineFail with
  | some e => [StreamEvent.error e]
  | none =>
    match o.llm with
    | Except.error e => [StreamEvent.error e]
    | Except.ok ans =>
      StreamEvent.answer ans ::
        (match extractFail with
         | some e => [StreamEvent.error e]
         | none => [StreamEvent.sources ((o.ranked.take 5).map mkSource)])

end RAGService

/-- services/worker.py process_document : load the document (abort when
absent), set status processing, run ingest_document, then set status
ingested or failed according to the ingestion result.  Status-update store
calls are modelled as succeeding; the parse outcome and splitter are the
external oracles of the ingestion step. -/
def process_document (st : Store) (document_id : String)
    (parseOutcome : Except String String) (splitter : String → List String)
    (ev : String) (now : Nat) : Store × Bool :=
  match get_document st document_id with
  | none => (st, false)
  | some _ =>
    let st1 := (update_document_status st true document_id
      DocumentStatus.processing now).1
    let r := RAGService.ingest_document st1 document_id parseOutcome splitter ev
    if r.2 then
      ((update_document_status r.1 true document_id
        DocumentStatus.ingested now).1, true)
    else
      ((update_document_status r.1 true document_id
        DocumentStatus.failed now).1, false)

/-- main.py UploadResponse. -/
structure UploadResponse where
  document_id : String
  filename : String
  status : String
  message : String
  deriving DecidableEq

/-- An incoming multipart file : optional filename, content size in bytes,
optional declared content type. -/
structure UploadFile where
  filename : Option String
  size : Nat
  content_type : Option String
  deriving DecidableEq

/-- Result of the upload endpoint : the HTTP response (an HTTPException is an
error carrying status code and detail), the resulting store, and the list of
document ids handed to enqueue_ingestion_job. -/
structure UploadOutcome where
  response : Except (Nat × String) UploadResponse
  store : Store
  jobs : List String

namespace Api

/-- main.py upload_document : reject a missing/empty filename with 400 and an
oversized body with 413 BEFORE any state is touched; otherwise save the file,
create the document record (create_document's boolean result is DISCARDED),
enqueue the ingestion job, and report success unconditionally. -/
def upload_document (s : Settings) (st : Store) (jobs : List String)
    (file : UploadFile) (freshDocId : String) (storeOk : Bool) (now : Nat) :
    UploadOutcome :=
  if file.filename = none ∨ file.filename = some "" then
    { response := Except.error (400, "No filename provided")
      store := st, jobs := jobs }
  else if file.size > s.MAX_UPLOAD_SIZE_MB * 1024 * 1024 then
    { response := Except.error (413, "File too large")
      store := st, jobs := jobs }
  else
    let fname := file.filename.getD ""
    let file_path := s.UPLOAD_DIR ++ "/" ++ freshDocId ++ "_" ++ fname
    let document : Document :=
      { document_id := freshDocId
        user_id := "default_user"
        filename := fname
        content_type := file.content_type.getD "application/octet-stream"
        storage_uri := file_path
        status := DocumentStatus.uploaded
        created_at := now }
    let r := create_document st storeOk document
    { response := Except.ok
        { document_id := freshDocId
          filename := fname
          status := "uploaded"
          message := "Document uploaded successfully. Processing started." }
      store := r.1
      jobs := jobs ++ [freshDocId] }

/-- main.py delete_document endpoint : delete the chunks (the returned
boolean is ignored), then delete the document record; 404 when the record was
absent. -/
def delete_document (st : Store) (chunksOk docOk : Bool)
    (document_id : String) : Store × Except (Nat × String) String :=
  let st1 := (RAGService.delete_document_chunks st chunksOk document_id).1
  let r := RAGApp.delete_document st1 docOk document_id
  if r.2 then (r.1, Except.ok "Document deleted successfully")
  else (r.1, Except.error (404, "Document not found"))

/-- main.py query_documents endpoint : forwards request.query and
request.filters to RAGService.query; request.top_k and request.temperature
are never read. -/
def query_documents (o : QueryOracle) (req : QueryRequest) : QueryResponse :=
  RAGService.query o req.query (req.filters.getD [])

end Api

/-- Number of records in the documents collection whose payload carries the
given document_id. -/
def recordCount (st : Store) (id : String) : Nat :=
  (st.documents.filter (fun p => p.payload.document_id == id)).length

/-- Number of points in the chunks collection whose payload carries the given
document_id (count with a document_id filter). -/
def countChunksFor (st : Store) (id : String) : Nat :=
  (st.chunks.filter (fun p => p.payload.document_id == id)).length

/-- Whether some record for the given document_id has status failed. -/
def hasFailedRecord (st : Store) (id : String) : Bool :=
  st.documents.any (fun p =>
    p.payload.document_id == id && decide (p.payload.status = DocumentStatus.failed))

/-- Whether the first list of characters is a prefix of the second. -/
def listStartsWith : List Char → List Char → Bool
  | [], _ => true
  | _ :: _, [] => false
  | a :: as, b :: bs => a == b && listStartsWith as bs

/-- Whether `need` occurs as a substring of `hay`. -/
def strContains (hay need : String) : Bool :=
  (List.range (hay.data.length + 1)).any
    (fun i => listStartsWith need.data (hay.data.drop i))

/-- Whether any field of the document record mentions the string `e` :
formalizes "the record contains the error text". -/
def documentMentions (doc : Document) (e : String) : Bool :=
  strContains doc.document_id e || strContains doc.user_id e ||
  strContains doc.filename e || strContains doc.content_type e ||
  strContains doc.storage_uri e || strContains (doc.checksum.getD "") e ||
  (doc.tags.getD []).any (fun t => strContains t e)

/-- The shape the spec claims for a streamed query : either exactly an answer
event followed by a sources event, or a single error event. -/
def claimedStreamShape (evs : List StreamEvent) : Prop :=
  (∃ a s, evs = [StreamEvent.answer a, StreamEvent.sources s]) ∨
  (∃ e, evs = [StreamEvent.error e])

/-- A sample document record, as created by the upload endpoint. -/
def doc1 : Document :=
  { document_id := "d1"
    user_id := "default_user"
    filename := "f.txt"
    content_type := "text/plain"
    storage_uri := "./uploads/d1_f.txt"
    status := DocumentStatus.uploaded
    created_at := 0 }

/-- A store holding exactly one record for document id "d1". -/
def st0 : Store :=
  { documents := [{ pid := 0, payload := doc1 }]
    chunks := []
    nextUuid := 1 }

/-- Helper : a pid strictly above every pid in the collection never collides,
so the Qdrant upsert appends the point. -/
theorem qdrantUpsertDoc_fresh (docs : List DocPoint) (p : DocPoint)
    (h : ∀ q ∈ docs, q.pid < p.pid) :
    qdrantUpsertDoc docs p = docs ++ [p] := by
  unfold qdrantUpsertDoc
  have hany : docs.any (fun q => q.pid == p.pid) = false := by
    simp only [List.any_eq_false]
    intro q hq
    simp [Nat.ne_of_lt (h q hq)]
  rw [hany]
  simp

/-- Helper : find? over an extended list still returns the hit found in the
first part. -/
theorem find?_append_of_some {α : Type} (p : α → Bool) (l l' : List α) (a : α)
    (h : l.find? p = some a) : (l ++ l').find? p = some a := by
  rw [List.find?_append, h]
  rfl

/-- Helper : when a status update finds the record and the store's uuid
supply is fresh, the update appends exactly one new point carrying the
mutated payload. -/
theorem update_status_appends (st : Store) (id : String) (d : Document)
    (s : DocumentStatus) (now : Nat)
    (hwf : ∀ p ∈ st.documents, p.pid < st.nextUuid)
    (hget : get_document st id = some d) :
    update_document_status st true id s now =
      ({ documents := st.documents ++
          [{ pid := st.nextUuid, payload := withStatus d s now }]
         chunks := st.chunks
         nextUuid := st.nextUuid + 1 }, true) := by
  have hany : st.documents.any (fun q => q.pid == st.nextUuid) = false := by
    simp only [List.any_eq_false]
    intro q hq
    simp [Nat.ne_of_lt (hwf q hq)]
  simp [update_document_status, hget, create_document, qdrantUpsertDoc, hany,
    withStatus]

/-- Helper : appending points to the collection does not change what
get_document returns when it already found a record. -/
theorem get_document_extend (st : Store) (id : String) (d : Document)
    (more : List DocPoint)
    (hget : get_document st id = some d) :
    get_document { st with documents := st.documents ++ more } id = some d := by
  unfold get_document at hget ⊢
  cases hfind : st.documents.find? (fun p => p.payload.document_id == id) with
  | none => rw [hfind] at hget; simp at hget
  | some p0 =>
    rw [hfind] at hget
    show ((st.documents ++ more).find? (fun p => p.payload.document_id == id)).map
      (fun p => p.payload) = some d
    rw [find?_append_of_some _ _ _ _ hfind]
    exact hget

/-- Helper : the record returned by get_document carries the id it was
looked up by. -/
theorem get_document_id_matches (st : Store) (id : String) (d : Document)
    (hget : get_document st id = some d) : d.document_id = id := by
  unfold get_document at hget
  cases hfind : st.documents.find? (fun p => p.payload.document_id == id) with
  | none => rw [hfind] at hget; simp at hget
  | some p0 =>
    rw [hfind] at hget
    simp only [Option.map] at hget
    have h2 := List.find?_some hfind
    rw [Option.some.injEq] at hget
    rw [hget] at h2
    simpa using h2

/-- Helper : when the parse outcome is an error or the parsed text is empty,
ingest_document indexes nothing and reports failure. -/
theorem ingest_document_fails (st : Store) (id : String)
    (oc : Except String String) (sp : String → List String) (ev : String)
    (hfail : RAGService.parse_document oc = none ∨
             RAGService.parse_document oc = some "") :
    RAGService.ingest_document st id oc sp ev = (st, false) := by
  unfold RAGService.ingest_document
  rcases hfail with h | h
  · rw [h]
  · rw [h]
    simp

/-- Helper : the store obtained from `st` by appending the processing record
written by the worker's first status update. -/
def afterProcessing (st : Store) (d : Document) (now : Nat) : Store :=
  { documents := st.documents ++
      [{ pid := st.nextUuid, payload := withStatus d DocumentStatus.processing now }]
    chunks := st.chunks
    nextUuid := st.nextUuid + 1 }

/-- Helper : full characterization of the worker's failure path.  When the
record exists and ingestion fails (parse error or empty text), the worker
appends a processing record and then a failed record (each under a fresh
point id) and reports failure; the chunks collection is untouched. -/
theorem process_document_ingest_failure
    (st : Store) (id : String) (oc : Except String String)
    (sp : String → List String) (ev : String) (now : Nat) (d : Document)
    (hwf : ∀ p ∈ st.documents, p.pid < st.nextUuid)
    (hget : get_document st id = some d)
    (hfail : RAGService.parse_document oc = none ∨
             RAGService.parse_document oc = some "") :
    process_document st id oc sp ev now =
      ({ documents := st.documents ++
          [{ pid := st.nextUuid, payload := withStatus d DocumentStatus.processing now },
           { pid := st.nextUuid + 1, payload := withStatus d DocumentStatus.failed now }]
         chunks := st.chunks
         nextUuid := st.nextUuid + 2 }, false) := by
  have h1 := update_status_appends st id d DocumentStatus.processing now hwf hget
  have hwf1 : ∀ p ∈ (afterProcessing st d now).documents,
      p.pid < (afterProcessing st d now).nextUuid := by
    intro q hq
    rcases List.mem_append.mp hq with hmem | hmem
    · exact Nat.lt_succ_of_lt (hwf q hmem)
    · simp only [List.mem_singleton] at hmem
      rw [hmem]
      exact Nat.lt_succ_self _
  have hget1 : get_document (afterProcessing st d now) id = some d := by
    have := get_document_extend st id d
      [{ pid := st.nextUuid, payload := withStatus d DocumentStatus.processing now }] hget
    exact this
  have h2 := ingest_document_fails (afterProcessing st d now) id oc sp ev hfail
  have h3 := update_status_appends (afterProcessing st d now) id d
    DocumentStatus.failed now hwf1 hget1
  unfold process_document
  split
  · rename_i heq
    rw [heq] at hget
    exact absurd hget (by simp)
  · have h1' : (update_document_status st true id DocumentStatus.processing now).1 =
      afterProcessing st d now := by rw [h1]; rfl
    rw [h1']
    simp only [h2, h3]
    simp [afterProcessing, List.append_assoc]

/-- C1 : the one-record-per-id invariant is NOT preserved by
update_document_status.  Starting from a store with exactly one record for
"d1", a single status update leaves TWO records with document_id "d1",
because create_document upserts under a fresh uuid point id instead of
overwriting the existing point. -/
theorem C1_update_status_duplicates_record :
    recordCount st0 "d1" = 1 ∧
    recordCount (update_document_status st0 true "d1"
      DocumentStatus.processing 5).1 "d1" = 2 := by
  constructor
  · rfl
  · rfl

/-- C2 counterexample : a concrete ingestion job fails with error text
"boom!"; the worker reports failure, yet afterwards NO record for the
document mentions the error text in any field — the claim that the stored
Document record contains the error text is false (the Document model has no
error field and the error is only printed). -/
theorem C2_counterexample :
    (process_document st0 "d1" (Except.error "boom!") (fun t => [t]) "v1" 5).2 = false ∧
    (process_document st0 "d1" (Except.error "boom!") (fun t => [t]) "v1" 5).1.documents.all
      (fun p => !(documentMentions p.payload "boom!")) = true := by decide

/-- C2 (amended) : for every ingestion job whose ingestion step fails, the
worker records status FAILED for the document (a failed record exists
afterwards), but the error description is NOT retained : the resulting state
is identical whatever the error text was, because the error is only printed,
never stored. -/
theorem C2_failed_status_error_not_retained
    (st : Store) (id : String) (e e' : String)
    (sp : String → List String) (ev : String) (now : Nat) (d : Document)
    (hwf : ∀ p ∈ st.documents, p.pid < st.nextUuid)
    (hget : get_document st id = some d) :
    (process_document st id (Except.error e) sp ev now).2 = false ∧
    hasFailedRecord (process_document st id (Except.error e) sp ev now).1 id = true ∧
    process_document st id (Except.error e) sp ev now =
      process_document st id (Except.error e') sp ev now := by
  have hid := get_document_id_matches st id d hget
  have h := process_document_ingest_failure st id (Except.error e) sp ev now d
    hwf hget (Or.inl rfl)
  have h' := process_document_ingest_failure st id (Except.error e') sp ev now d
    hwf hget (Or.inl rfl)
  refine ⟨by rw [h], ?_, h.trans h'.symm⟩
  rw [h]
  simp [hasFailedRecord, withStatus, hid]

/-- C2 witness : the amended statement evaluated on the concrete
one-document store. -/
theorem C2_witness :
    (process_document st0 "d1" (Except.error "boom") (fun t => [t]) "v1" 5).2 = false ∧
    hasFailedRecord (process_document st0 "d1" (Except.error "boom")
      (fun t => [t]) "v1" 5).1 "d1" = true ∧
    process_document st0 "d1" (Except.error "boom") (fun t => [t]) "v1" 5 =
      process_document st0 "d1" (Except.error "zap") (fun t => [t]) "v1" 5 :=
  C2_failed_status_error_not_retained st0 "d1" "boom" "zap" (fun t => [t]) "v1" 5
    doc1 (by decide) (by decide)

/-- C8 : a document whose parsed text content is empty is treated as an
ingestion failure : ingest_document indexes nothing and returns false, and
the worker therefore records status FAILED for the document. -/
theorem C8_empty_text_ingestion_fails
    (st : Store) (id : String) (sp : String → List String) (ev : String)
    (now : Nat) (d : Document)
    (hwf : ∀ p ∈ st.documents, p.pid < st.nextUuid)
    (hget : get_document st id = some d) :
    RAGService.ingest_document st id (Except.ok "") sp ev = (st, false) ∧
    (process_document st id (Except.ok "") sp ev now).2 = false ∧
    hasFailedRecord (process_document st id (Except.ok "") sp ev now).1 id = true := by
  have hid := get_document_id_matches st id d hget
  have h := process_document_ingest_failure st id (Except.ok "") sp ev now d
    hwf hget (Or.inr rfl)
  refine ⟨ingest_document_fails st id _ sp ev (Or.inr rfl), by rw [h], ?_⟩
  rw [h]
  simp [hasFailedRecord, withStatus, hid]

/-- C8 witness : the statement evaluated on the concrete one-document
store. -/
theorem C8_witness :
    RAGService.ingest_document st0 "d1" (Except.ok "") (fun t => [t]) "v1" = (st0, false) ∧
    (process_document st0 "d1" (Except.ok "") (fun t => [t]) "v1" 5).2 = false ∧
    hasFailedRecord (process_document st0 "d1" (Except.ok "")
      (fun t => [t]) "v1" 5).1 "d1" = true :=
  C8_empty_text_ingestion_fails st0 "d1" (fun t => [t]) "v1" 5 doc1
    (by decide) (by decide)

/-- C3 counterexample : on a retrieval/LLM failure the degraded response's
answer is NOT empty — it is the string "Error processing query: " followed by
the exception text — so the claim that the answer is empty fails, although
the metadata does carry the explicit error field. -/
theorem C3_counterexample :
    (RAGService.query { engineFail := some "boom", llm := Except.ok "x", ranked := [] }
      "q" []).answer = "Error processing query: boom" ∧
    ¬ (RAGService.query { engineFail := some "boom", llm := Except.ok "x", ranked := [] }
      "q" []).answer = "" ∧
    (RAGService.query { engineFail := some "boom", llm := Except.ok "x", ranked := [] }
      "q" []).metadata = [("error", MetaVal.s "boom")] := by decide

/-- C3 (amended) : when retrieval or the LLM fails inside the query path, the
synthesizer returns a well-formed degraded response whose answer is the
NON-empty string "Error processing query: " followed by the error text, with
empty sources and an explicit error entry in metadata; the function is total,
so it never raises to the caller. -/
theorem C3_degraded_response (o : QueryOracle) (qt : String)
    (fl : List (String × String)) (e : String)
    (h : o.engineFail = some e ∨ (o.engineFail = none ∧ o.llm = Except.error e)) :
    RAGService.query o qt fl =
      { answer := "Error processing query: " ++ e
        sources := []
        metadata := [("error", MetaVal.s e)] } ∧
    (RAGService.query o qt fl).answer ≠ "" := by
  have hresp : RAGService.query o qt fl =
      { answer := "Error processing query: " ++ e
        sources := []
        metadata := [("error", MetaVal.s e)] } := by
    rcases h with h | ⟨h1, h2⟩
    · simp [RAGService.query, h]
    · simp [RAGService.query, h1, h2]
  refine ⟨hresp, ?_⟩
  rw [hresp]
  intro hcontra
  have hlen := congrArg String.length hcontra
  rw [String.length_append] at hlen
  have h24 : ("Error processing query: ").length = 24 := by decide
  rw [h24] at hlen
  simp at hlen

/-- C3 witness : the amended statement at a concrete failing oracle. -/
theorem C3_witness :
    RAGService.query { engineFail := some "boom", llm := Except.ok "x", ranked := [] }
      "q" [] =
      { answer := "Error processing query: " ++ "boom"
        sources := []
        metadata := [("error", MetaVal.s "boom")] } ∧
    (RAGService.query { engineFail := some "boom", llm := Except.ok "x", ranked := [] }
      "q" []).answer ≠ "" :=
  C3_degraded_response { engineFail := some "boom", llm := Except.ok "x", ranked := [] }
    "q" [] "boom" (Or.inl rfl)

/-- C4 : the collection a deployment writes to is NOT determined by the
embedding provider's dimension : _ensure_collections picks
("chunks_local", 384) for local embeddings, yet _get_vector_store targets
"chunks" for every settings value, so 384-dimension local embeddings are
written to the same "chunks" collection as 1536-dimension remote ones, and no
application code rejects the dimension mismatch. -/
theorem C4_collection_ignores_dimension :
    ensure_collections_chunk true = ("chunks_local", 384) ∧
    embeddingDimension { USE_LOCAL_EMBEDDINGS := true } = 384 ∧
    RAGService.get_vector_store_collection ({ USE_LOCAL_EMBEDDINGS := true } : Settings)
      = "chunks" ∧
    RAGService.get_vector_store_collection ({ USE_LOCAL_EMBEDDINGS := false } : Settings)
      = "chunks" ∧
    "chunks" ≠ "chunks_local" := by decide

/-- C5 counterexample : a failure raised while building the sources list —
after the answer was already yielded — produces the event sequence
[answer, error] : an answer event IS followed by an error event, refuting the
claimed protocol of exactly [answer, sources] or a single [error]. -/
theorem C5_counterexample :
    RAGService.query_stream { engineFail := none, llm := Except.ok "ans", ranked := [] }
      (some "bad node") "q" =
      [StreamEvent.answer "ans", StreamEvent.error "bad node"] ∧
    ¬ claimedStreamShape (RAGService.query_stream
      { engineFail := none, llm := Except.ok "ans", ranked := [] } (some "bad node") "q") := by
  constructor
  · rfl
  · intro h
    rcases h with ⟨a, s, hh⟩ | ⟨e, hh⟩ <;> simp [RAGService.query_stream] at hh

/-- C5 (amended) : every streamed query yields exactly one of three shapes :
a single error event (failure before the answer was emitted), an answer event
followed by a sources event, or an answer event followed by an error event
when a failure occurs while building the sources list after the answer was
emitted.  In particular an answer always precedes sources and nothing follows
the final event. -/
theorem C5_stream_shapes (o : QueryOracle) (xf : Option String) (qt : String) :
    (∃ e, RAGService.query_stream o xf qt = [StreamEvent.error e]) ∨
    (∃ a s, RAGService.query_stream o xf qt =
      [StreamEvent.answer a, StreamEvent.sources s]) ∨
    (∃ a e, RAGService.query_stream o xf qt =
      [StreamEvent.answer a, StreamEvent.error e]) := by
  unfold RAGService.query_stream
  cases ho : o.engineFail with
  | some e => exact Or.inl ⟨e, rfl⟩
  | none =>
    cases hl : o.llm with
    | error e => exact Or.inl ⟨e, rfl⟩
    | ok a =>
      cases hx : xf with
      | some e => exact Or.inr (Or.inr ⟨a, e, rfl⟩)
      | none => exact Or.inr (Or.inl ⟨a, _, rfl⟩)

/-- Helper : the store returned by the delete-document endpoint is the one
produced by the record deletion, whichever branch the response takes. -/
theorem api_delete_fst (st : Store) (c d : Bool) (id : String) :
    (Api.delete_document st c d id).1 =
      (RAGApp.delete_document ((RAGService.delete_document_chunks st c id).1) d id).1 := by
  unfold Api.delete_document
  cases hb : (RAGApp.delete_document ((RAGService.delete_document_chunks st c id).1) d id).2
    <;> simp [hb]

/-- Helper : deleting the document record never touches the chunks
collection. -/
theorem delete_document_chunks_preserved (st : Store) (ok : Bool) (id : String) :
    (delete_document st ok id).1.chunks = st.chunks := by
  unfold delete_document
  cases ok with
  | false => rfl
  | true =>
    cases h : st.documents.find? (fun p => p.payload.document_id == id) with
    | none => rfl
    | some p => rfl

/-- Helper : filtering for a predicate after filtering for its negation
leaves nothing. -/
theorem length_filter_filter_not {α : Type} (q : α → Bool) (l : List α) :
    ((l.filter (fun a => !(q a))).filter q).length = 0 := by
  induction l with
  | nil => rfl
  | cons a l ih =>
    by_cases h : q a = true
    · simp [List.filter_cons, h, ih]
    · simp [List.filter_cons, h, ih]

/-- C6 : after the delete-document endpoint completes (with the delete-by-
filter call on the chunks collection succeeding), counting fragments filtered
by that document_id yields 0 — no fragment with that document_id remains,
whatever the document-record deletion returned. -/
theorem C6_delete_leaves_no_chunks (st : Store) (docOk : Bool) (id : String) :
    countChunksFor (Api.delete_document st true docOk id).1 id = 0 := by
  rw [api_delete_fst]
  unfold countChunksFor
  rw [delete_document_chunks_preserved]
  simp only [RAGService.delete_document_chunks, if_true]
  exact length_filter_filter_not _ _

/-- C7 : an upload failing validation — missing or empty filename, or content
larger than MAX_UPLOAD_SIZE_MB megabytes — is rejected synchronously with an
HTTP error : no document record is written (the store is unchanged) and no
ingestion job is enqueued. -/
theorem C7_invalid_upload_rejected (s : Settings) (st : Store)
    (jobs : List String) (f : UploadFile) (docId : String) (storeOk : Bool)
    (now : Nat)
    (h : f.filename = none ∨ f.filename = some "" ∨
         f.size > s.MAX_UPLOAD_SIZE_MB * 1024 * 1024) :
    (∃ code detail, (Api.upload_document s st jobs f docId storeOk now).response =
        Except.error (code, detail)) ∧
    (Api.upload_document s st jobs f docId storeOk now).store = st ∧
    (Api.upload_document s st jobs f docId storeOk now).jobs = jobs := by
  unfold Api.upload_document
  by_cases h1 : f.filename = none ∨ f.filename = some ""
  · rw [if_pos h1]
    exact ⟨⟨400, "No filename provided", rfl⟩, rfl, rfl⟩
  · rw [if_neg h1]
    have h2 : f.size > s.MAX_UPLOAD_SIZE_MB * 1024 * 1024 := by
      rcases h with h | h | h
      · exact absurd (Or.inl h) h1
      · exact absurd (Or.inr h) h1
      · exact h
    rw [if_pos h2]
    exact ⟨⟨413, "File too large", rfl⟩, rfl, rfl⟩

/-- C7 witness : a concrete upload with no filename is rejected and leaves no
trace. -/
theorem C7_witness :
    (∃ code detail, (Api.upload_document {} st0 [] ⟨none, 0, none⟩ "d2" true 7).response =
        Except.error (code, detail)) ∧
    (Api.upload_document {} st0 [] ⟨none, 0, none⟩ "d2" true 7).store = st0 ∧
    (Api.upload_document {} st0 [] ⟨none, 0, none⟩ "d2" true 7).jobs = [] :=
  C7_invalid_upload_rejected {} st0 [] ⟨none, 0, none⟩ "d2" true 7 (Or.inl rfl)

/-- C9 : an upload that passes validation returns the fixed success response
(status "uploaded", message "Document uploaded successfully. Processing
started.") and enqueues the ingestion job whether or not the create_document
write succeeded — its boolean result is discarded. -/
theorem C9_upload_ignores_create_result (s : Settings) (st : Store)
    (jobs : List String) (f : UploadFile) (docId : String) (now : Nat)
    (fname : String) (hn : f.filename = some fname) (hne : fname ≠ "")
    (hsz : ¬ f.size > s.MAX_UPLOAD_SIZE_MB * 1024 * 1024) :
    ∀ storeOk : Bool,
      (Api.upload_document s st jobs f docId storeOk now).response =
        Except.ok { document_id := docId, filename := fname,
                    status := "uploaded",
                    message := "Document uploaded successfully. Processing started." } ∧
      (Api.upload_document s st jobs f docId storeOk now).jobs = jobs ++ [docId] := by
  intro storeOk
  have h1 : ¬ (f.filename = none ∨ f.filename = some "") := by
    rintro (h | h)
    · rw [hn] at h
      exact Option.noConfusion h
    · rw [hn] at h
      exact hne (Option.some.inj h)
  unfold Api.upload_document
  rw [if_neg h1, if_neg hsz]
  constructor
  · simp [hn]
  · rfl

/-- C9 witness : a concrete valid upload returns the success response both
when the record write succeeds and when it fails. -/
theorem C9_witness :
    ((Api.upload_document {} st0 [] ⟨some "a.txt", 10, some "text/plain"⟩ "d2" true 7).response =
        Except.ok { document_id := "d2", filename := "a.txt", status := "uploaded",
                    message := "Document uploaded successfully. Processing started." } ∧
      (Api.upload_document {} st0 [] ⟨some "a.txt", 10, some "text/plain"⟩ "d2" true 7).jobs =
        [] ++ ["d2"]) ∧
    ((Api.upload_document {} st0 [] ⟨some "a.txt", 10, some "text/plain"⟩ "d2" false 7).response =
        Except.ok { document_id := "d2", filename := "a.txt", status := "uploaded",
                    message := "Document uploaded successfully. Processing started." } ∧
      (Api.upload_document {} st0 [] ⟨some "a.txt", 10, some "text/plain"⟩ "d2" false 7).jobs =
        [] ++ ["d2"]) :=
  ⟨C9_upload_ignores_create_result {} st0 [] ⟨some "a.txt", 10, some "text/plain"⟩
      "d2" 7 "a.txt" rfl (by decide) (by decide) true,
   C9_upload_ignores_create_result {} st0 [] ⟨some "a.txt", 10, some "text/plain"⟩
      "d2" 7 "a.txt" rfl (by decide) (by decide) false⟩

/-- C10 : the query endpoint reads only query and filters from the request :
two requests agreeing on those but differing arbitrarily in top_k and
temperature produce identical responses, and since the retriever is built
with similarity_top_k = 5 the response never carries more than 5 sources. -/
theorem C10_topk_temperature_ignored (o : QueryOracle) (r1 r2 : QueryRequest)
    (hq : r1.query = r2.query) (hf : r1.filters = r2.filters) :
    Api.query_documents o r1 = Api.query_documents o r2 ∧
    (Api.query_documents o r1).sources.length ≤ 5 := by
  constructor
  · unfold Api.query_documents
    rw [hq, hf]
  · unfold Api.query_documents RAGService.query
    cases o.engineFail with
    | some e => simp
    | none =>
      cases o.llm with
      | error e => simp
      | ok a =>
        simp only [List.length_map, List.length_take]
        exact min_le_left _ _

/-- C10 witness : two concrete requests differing only in top_k and
temperature get the same response, which carries at most 5 sources. -/
theorem C10_witness :
    Api.query_documents { engineFail := none, llm := Except.ok "hi", ranked := [] }
      { query := "q", top_k := 1, temperature := 0 } =
      Api.query_documents { engineFail := none, llm := Except.ok "hi", ranked := [] }
        { query := "q", top_k := 50, temperature := 2 } ∧
    (Api.query_documents { engineFail := none, llm := Except.ok "hi", ranked := [] }
      { query := "q", top_k := 1, temperature := 0 }).sources.length ≤ 5 :=
  C10_topk_temperature_ignored
    { engineFail := none, llm := Except.ok "hi", ranked := [] }
    { query := "q", top_k := 1, temperature := 0 }
    { query := "q", top_k := 50, temperature := 2 } rfl rfl

end RAGApp
